import Mathlib

/-!
Verification of the weather-product lifecycle and delay-aggregation pipeline of
`pysar/tropcor_pyaps.py` against its design specification.

Strings are modelled as lists of characters (`Str`), file systems as
association lists from path to file size in bytes (`FS`).  Python functions are
translated one statement at a time; external collaborators (the PyAPS download
and delay-estimation routines, the HDF5 container) are taken as parameters.
The float literal `0.9` in the corruption threshold and `10e6` in the
minimum-size filter are modelled exactly as the rationals 9/10 and 10^7: for
file sizes of realistic magnitude (far below 2^49) the double-precision
comparison `size < comm_size * 0.9` agrees with the rational comparison
`10 * size < 9 * comm_size`, because `comm_size * 0.9` rounds to the nearest
double of `0.9 * comm_size` within half an ulp.
-/

/-- Paths, dates, hours and model identifiers are plain strings; we model them
as lists of characters so that concatenation and prefix tests compute. -/
abbrev Str := List Char

/-- The POSIX path separator used by `os.path.basename` / `os.path.dirname`. -/
def slash : Char := '/'

/-- Boolean test that a string contains no path separator (true for the date
and hour fields substituted into the filename templates). -/
def noSlash (t : Str) : Bool := t.all (fun c => ! decide (c = slash))

/-- Embedding of Python's `str.startswith`, recursing over both strings. -/
def startsWithL : Str → Str → Bool
  | [], _ => true
  | _ :: _, [] => false
  | p :: ps, s :: ss => p == s && startsWithL ps ss

/-- Embedding of `os.path.basename`: the characters after the last `'/'`. -/
def basenameL : Str → Str
  | [] => []
  | c :: cs =>
    if c = slash then basenameL cs
    else if slash ∈ cs then basenameL cs
    else c :: basenameL cs

/-- Embedding of `os.path.dirname` for slash-separated paths: the characters
before the last `'/'` (without trailing-separator normalization, which none of
the paths built by this program need). -/
def dirnameL : Str → Str
  | [] => []
  | c :: cs => if slash ∈ cs then c :: dirnameL cs else []

/-- Embedding of `os.path.join` for a relative second component. -/
def pathJoin (a b : Str) : Str :=
  if a = [] then b
  else if a.getLast? = some slash then a ++ b
  else a ++ slash :: b

/-- Model identifier string `ECMWF` (ERA-Interim). -/
def nECMWF : Str := ("ECMWF").data

/-- Model identifier string `MERRA`. -/
def nMERRA : Str := ("MERRA").data

/-- Model identifier string `NARR`. -/
def nNARR : Str := ("NARR").data

/-- Model identifier string `ERA`. -/
def nERA : Str := ("ERA").data

/-- Model identifier string `MERRA1` (legacy MERRA variant). -/
def nMERRA1 : Str := ("MERRA1").data

/-- Embedding of `date_list2grib_file` (tropcor_pyaps.py lines 233-243): map
each date to the grib file path for the given model and hour.  Each branch of
the Python if/elif chain appends a filename template to `grib_dir + '/'`; if no
branch matches, the bare `grib_dir + '/'` is appended to the result list. -/
def date_list2grib_file (date_list : List Str) (hour : Str) (trop_model : Str) (grib_dir : Str) : List Str :=
  date_list.map (fun d =>
    let base := grib_dir ++ [slash]
    if trop_model = nECMWF then base ++ ("ERA-Int_").data ++ d ++ ("_").data ++ hour ++ (".grb").data
    else if trop_model = nMERRA then base ++ ("merra-").data ++ d ++ ("-").data ++ hour ++ (".nc4").data
    else if trop_model = nNARR then base ++ ("narr-a_221_").data ++ d ++ ("_").data ++ hour ++ ("00_000.grb").data
    else if trop_model = nERA then base ++ ("ERA_").data ++ d ++ ("_").data ++ hour ++ (".grb").data
    else if trop_model = nMERRA1 then base ++ ("merra-").data ++ d ++ ("-").data ++ hour ++ (".hdf").data
    else base)

/-- Embedding of `grib_file_name2trop_model_name` (tropcor_pyaps.py lines
246-252): identify the model from the basename of a grib file path.  In Python
the local `trop_model` is only assigned inside the four `if`/`elif` branches,
so a basename matching none of them raises `UnboundLocalError` at the final
`return`; this partiality is modelled by `Option`, with `none` for the
unassigned-variable failure. -/
def grib_file_name2trop_model_name (grib_file : Str) : Option Str :=
  let b := basenameL grib_file
  if startsWithL (("ERA-Int").data) b then some nECMWF
  else if startsWithL (("merra").data) b then some nMERRA
  else if startsWithL (("narr").data) b then some nNARR
  else if startsWithL (("ERA_").data) b then some nERA
  else none

/-- A backing file store: an association list from file path to file size in
bytes.  A path absent from the list models a file that does not exist. -/
abbrev FS := List (Str × Nat)

/-- Size lookup, the embedding of `os.path.getsize` combined with the
existence test: `none` when the file does not exist. -/
def fsSize : FS → Str → Option Nat
  | [], _ => none
  | e :: rest, p => if e.1 = p then some e.2 else fsSize rest p

/-- Effect of `rm <path>` on the backing store. -/
def fsDelete (fs : FS) (p : Str) : FS := fs.filter (fun e => ! decide (e.1 = p))

/-- Modelled from the spec: `ut.get_file_list` lives in `pysar/utils`, which is
not under src/.  Per the verifier algorithm in the spec, step 1 is to filter
the requested paths to those that exist on the backing store, preserving the
input order. -/
def existingFiles (fs : FS) (l : List Str) : List Str :=
  l.filter (fun p => (fsSize fs p).isSome)

/-- Sizes of the existing files that clear the minimum plausible size
threshold: the list comprehension `[getsize(i) for i in gfile_exist if
getsize(i) > 10e6]` with `10e6 = 10^7` bytes. -/
def bigFileSizes (fs : FS) (l : List Str) : List Nat :=
  ((existingFiles fs l).filterMap (fsSize fs)).filter (fun s => decide (10000000 < s))

/-- Number of occurrences of `x` in `l`. -/
def countOcc (l : List Nat) (x : Nat) : Nat := (l.filter (fun y => decide (y = x))).length

/-- Modelled from the spec: `ut.most_common` lives in `pysar/utils`, which is
not under src/.  The spec defines the consensus size as the most frequent file
size among the candidates; ties keep the earliest-encountered value. -/
def mostCommon (l : List Nat) : Nat :=
  match l with
  | [] => 0
  | x :: _ => l.foldl (fun best y => if countOcc l best < countOcc l y then y else best) x

/-- The corruption test of tropcor_pyaps.py line 269: `getsize(gfile) <
comm_size * 0.9`, with the float threshold modelled exactly as the rational
9/10 (see the header comment). -/
def corruptPred (fs : FS) (comm : Nat) (g : Str) : Bool :=
  match fsSize fs g with
  | some s => decide (10 * s < 9 * comm)
  | none => false

/-- Remove the first occurrence of a value from a list: the embedding of
Python's `list.remove` (which raises when absent; the call sites below only
remove members). -/
def removeFirst (p : Str) : List Str → List Str
  | [] => []
  | q :: qs => if q = p then qs else q :: removeFirst p qs

/-- Embedding of the deletion loop of `check_exist_grib_file` in the
no-consensus branch, where Python's `gfile_corrupt = gfile_exist` makes the
iterated list and the mutated list the SAME object.  A Python `for` loop keeps
an internal index into the live list: each iteration reads the element at the
index, deletes its file and removes it from the list (shifting later elements
left), then advances the index, so the loop skips every other element.  The
first argument is fuel (the initial list length bounds the iteration count). -/
def pyAliasLoop : Nat → FS → List Str → Nat → FS × List Str
  | 0, fs, l, _ => (fs, l)
  | fuel + 1, fs, l, idx =>
    match l.get? idx with
    | none => (fs, l)
    | some i => pyAliasLoop fuel (fsDelete fs i) (removeFirst i l) (idx + 1)

/-- Embedding of `check_exist_grib_file` (tropcor_pyaps.py lines 255-286).
Returns the backing store after the `rm` side effects together with the final
`gfile_exist` list.  In the consensus branch `gfile_corrupt` is a fresh list
(`filter`) and the loop removes each of its elements from `gfile_exist`; in
the no-consensus branch `gfile_corrupt` aliases `gfile_exist` and the loop is
the aliased iteration `pyAliasLoop`. -/
def check_exist_grib_file (fs : FS) (gfile_list : List Str) : FS × List Str :=
  let gfile_exist := existingFiles fs gfile_list
  if gfile_exist.isEmpty then (fs, gfile_exist)
  else
    let file_sizes := bigFileSizes fs gfile_list
    if file_sizes.isEmpty then
      pyAliasLoop gfile_exist.length fs gfile_exist 0
    else
      let comm := mostCommon file_sizes
      let gfile_corrupt := gfile_exist.filter (corruptPred fs comm)
      gfile_corrupt.foldl (fun acc i => (fsDelete acc.1 i, removeFirst i acc.2)) (fs, gfile_exist)

/-- Embedding of the retry loop of `dload_grib_pyaps` (lines 311-321):
`i = 0; while i < 3: i += 1; try: pa.<model>dload(...) except: pass`.  The
fetch collaborator is a parameter mapping the attempt number and the current
store to the store after the attempt plus an optional raised exception; the
bare `except: pass` discards the exception component and continues, so every
attempt's failure is swallowed.  The first argument is the remaining fuel
(`3 - i`); the result carries the number of attempts made. -/
def dloadAttemptLoop (fetch : Nat → FS → FS × Option Unit) : Nat → Nat → FS → FS × Nat
  | 0, _, fs => (fs, 0)
  | fuel + 1, i, fs =>
    let fs' := (fetch (i + 1) fs).1
    let r := dloadAttemptLoop fetch fuel (i + 1) fs'
    (r.1, r.2 + 1)

/-- Embedding of `dload_grib_pyaps` (tropcor_pyaps.py lines 289-324): verify
(with deletion side effects), compute the missing subset, run the bounded
retry loop when it is non-empty, then re-verify and return the resulting
store, the post-fetch `grib_file_list` and the number of fetch attempts.  The
source derives the download date list, hour and model name from the missing
paths by regular expression; those strings are only handed to the external
fetch collaborator, which this embedding abstracts as `fetch`. -/
def dload_grib_pyaps (fetch : Nat → FS → FS × Option Unit) (fs : FS)
    (grib_file_list : List Str) : FS × List Str × Nat :=
  let r1 := check_exist_grib_file fs grib_file_list
  let missing := grib_file_list.filter (fun g => ! decide (g ∈ r1.2))
  let lr := if missing.isEmpty then (r1.1, 0) else dloadAttemptLoop fetch 3 0 r1.1
  let r2 := check_exist_grib_file lr.1 grib_file_list
  (r2.1, r2.2, lr.2)

/-- A delay field: a dense 2-D array of real-valued phase delay, modelled as a
function from row and column index to an exact rational (`np.float32` carries
reals; the subtraction identities proved below hold exactly in IEEE arithmetic
as well, since `x - x = 0` for finite floats). -/
abbrev DelayField := Nat → Nat → ℚ

/-- The all-zero delay field. -/
def zeroField : DelayField := fun _ _ => 0

/-- Embedding of the final two statements of `get_delay` (tropcor_pyaps.py
lines 362-363): `phs -= phs[ref_y, ref_x]; phs *= -1`, applied to the raw
estimator output `phs` (the PyAPS estimation itself, lines 341-359, is the
external collaborator and enters as the `phs` argument). -/
def get_delay_relative (phs : DelayField) (ry rx : Nat) : DelayField :=
  fun y x => -(phs y x - phs ry rx)

/-- Embedding of the reference normalization of `get_delay_timeseries` (line
400): `trop_data -= np.tile(trop_data[ref_idx, :, :], (num_date, 1, 1))`.
NumPy evaluates the tiled copy of the reference epoch before the in-place
subtraction, so every epoch subtracts the ORIGINAL reference field. -/
def normalizeToRef (stack : List DelayField) (refIdx : Nat) : List DelayField :=
  stack.map (fun f => fun y x => f y x - (stack.getD refIdx zeroField) y x)

/-- Embedding of `re.findall('\d{8}', s)[0]`: the first run of eight
consecutive decimal digits, `none` when there is none (Python raises
`IndexError` on the `[0]`). -/
def findDigits8 : Str → Option Str
  | [] => none
  | c :: cs =>
    if decide (((c :: cs).take 8).length = 8) && ((c :: cs).take 8).all Char.isDigit
    then some ((c :: cs).take 8)
    else findDigits8 cs

/-- Embedding of `list.index`: the first index of a value, `none` when absent
(Python raises `ValueError`). -/
def firstIdxOf (x : Str) : List Str → Option Nat
  | [] => none
  | y :: ys => if y = x then some 0 else (firstIdxOf x ys).map (fun n => n + 1)

/-- Modelled from the spec: `ut.run_or_skip` lives in `pysar/utils`, which is
not under src/.  Per the spec's skip-if-fresh policy it answers skip (false)
exactly when the stored result exists and its modification time is newer than
that of every contributing input file, and run (true) otherwise. -/
def runOrSkip (outMtime : Option Nat) (inMtimes : List Nat) : Bool :=
  match outMtime with
  | none => true
  | some t => ! inMtimes.all (fun m => decide (m < t))

/-- Observable outcome of `get_delay_timeseries`: the returned file path
(`none` models Python's implicit `return None` on the early exit), the number
of `get_delay` estimator invocations, whether the HDF5 result was (re)written,
and the computed date list and normalized delay stack. -/
structure GDTResult where
  tropFile : Option Str
  estimatorCalls : Nat
  wrote : Bool
  stack : List DelayField
  dates : List Str

/-- Embedding of `get_delay_timeseries` (tropcor_pyaps.py lines 367-424).
Collaborators enter as parameters: `tropMtime`/`gribMtimes` are the
modification times consulted by `ut.run_or_skip`, `estimator` is `get_delay`
for one grib file, `refDateAttr` is `atr['REF_DATE']` when present.  `Except`
models the uncaught Python exceptions: `IndexError` from the date-regex
lookup, `IndexError` from `date_list[0]` on an empty list, and `ValueError`
from `date_list.index` when the reference date is absent.  The temporary
geometry-file cleanup (lines 412-423) touches no modelled state. -/
def get_delay_timeseries (geomFile : Option Str) (refYx : Option (Nat × Nat))
    (tropModel : Str) (gribFiles : List Str) (tropMtime : Option Nat)
    (gribMtimes : List Nat) (estimator : Str → DelayField) (refDateAttr : Option Str) :
    Except Unit GDTResult :=
  match geomFile, refYx with
  | some g, some _ =>
    let tropFile := pathJoin (dirnameL g) (tropModel ++ (".h5").data)
    if runOrSkip tropMtime gribMtimes then
      match gribFiles.mapM findDigits8 with
      | none => Except.error ()
      | some dateList =>
        let stack := gribFiles.map estimator
        let refDate? := match refDateAttr with
          | some d => some d
          | none => dateList.head?
        match refDate? with
        | none => Except.error ()
        | some refDate =>
          match firstIdxOf refDate dateList with
          | none => Except.error ()
          | some refIdx =>
            Except.ok ⟨some tropFile, gribFiles.length, true, normalizeToRef stack refIdx, dateList⟩
    else Except.ok ⟨some tropFile, 0, false, [], []⟩
  | _, _ => Except.ok ⟨none, 0, false, [], []⟩

/-- A grib path whose basename matches none of the four recognized name
patterns (for the partiality witness). -/
def unknownEx : Str := ("WEATHER/ECMWF/GFS_20150102_12.grb").data

/-- An unsupported model identifier (for the silent-fallthrough witness). -/
def fooModel : Str := ("FOO").data

/-- Grib path fixture: resolver output for 20150101/12 under ECMWF. -/
def gribA : Str := ("WEATHER/ECMWF/ERA-Int_20150101_12.grb").data

/-- Grib path fixture for 20150102/12. -/
def gribB : Str := ("WEATHER/ECMWF/ERA-Int_20150102_12.grb").data

/-- Grib path fixture for 20150103/12. -/
def gribC : Str := ("WEATHER/ECMWF/ERA-Int_20150103_12.grb").data

/-- Grib path fixture for 20150104/12. -/
def gribD : Str := ("WEATHER/ECMWF/ERA-Int_20150104_12.grb").data

/-- Store for the corruption-threshold boundary: two artifacts at the
consensus size of 20000000 bytes and one at exactly 90% of it. -/
def fsC2 : FS := [(gribA, 20000000), (gribB, 20000000), (gribC, 18000000)]

/-- Path list for the corruption-threshold boundary. -/
def lC2 : List Str := [gribA, gribB, gribC]

/-- Store for the no-consensus fail-safe: two existing artifacts, both at or
below the 10^7-byte minimum plausible size. -/
def fsC3 : FS := [(gribA, 100), (gribB, 200)]

/-- Path list for the no-consensus fail-safe. -/
def lC3 : List Str := [gribA, gribB]

/-- Store for the retry witness: empty, so the requested artifact is missing. -/
def fsC5 : FS := []

/-- Path list for the retry witness. -/
def lC5 : List Str := [gribA]

/-- A fetch effect that leaves the store unchanged (a download that never
produces a file). -/
def idEff : Nat → FS → FS := fun _ s => s

/-- An attempt outcome that raises on every attempt. -/
def errAlways : Nat → FS → Option Unit := fun _ _ => some ()

/-- A fetch collaborator that raises on every attempt and writes nothing. -/
def failFetch : Nat → FS → FS × Option Unit := fun i s => (idEff i s, errAlways i s)

/-- Store for the date-survivor scenario: four existing artifacts, all at or
below the minimum plausible size, so none is ever valid. -/
def fsC6 : FS := [(gribA, 100), (gribB, 200), (gribC, 300), (gribD, 400)]

/-- Path list for the date-survivor scenario. -/
def lC6 : List Str := [gribA, gribB, gribC, gribD]

/-- Geometry file fixture. -/
def geomEx : Str := ("INPUTS/geometryRadar.h5").data

/-- A delay estimator stub returning the zero field for every artifact. -/
def zeroEst : Str → DelayField := fun _ => zeroField

/-- A constant delay field used by the normalization witness. -/
def constF3 : DelayField := fun _ _ => 3

/-- Concrete date used by the counterexamples and witnesses. -/
def dateEx : Str := ("20150102").data

/-- Concrete hour used by the counterexamples and witnesses. -/
def hourEx : Str := ("12").data

/-- Concrete grib directory used by the counterexamples and witnesses. -/
def dirEx : Str := ("WEATHER/ECMWF").data

theorem noSlash_iff (t : Str) : noSlash t = true ↔ slash ∉ t := by
  simp [noSlash, List.all_eq_true]
  constructor
  · intro h hm
    exact h slash hm rfl
  · intro h x hx he
    exact h (he ▸ hx)

theorem basenameL_no_slash (t : Str) (h : noSlash t = true) : basenameL t = t := by
  induction t with
  | nil => rfl
  | cons c cs ih =>
    rw [noSlash_iff] at h
    have hc : ¬ c = slash := fun he => h (he ▸ List.mem_cons_self c cs)
    have hcs : slash ∉ cs := fun hm => h (List.mem_cons_of_mem c hm)
    have hcs' : noSlash cs = true := (noSlash_iff cs).mpr hcs
    simp [basenameL, hc, hcs, ih hcs']

theorem basenameL_append_slash (s t : Str) (h : noSlash t = true) :
    basenameL (s ++ slash :: t) = t := by
  induction s with
  | nil => simp [basenameL, basenameL_no_slash t h]
  | cons a s' ih =>
    by_cases ha : a = slash
    · simpa [basenameL, ha] using ih
    · have hm : slash ∈ s' ++ slash :: t := List.mem_append_right s' (List.mem_cons_self slash t)
      simp [basenameL, ha, hm, ih]

theorem startsWithL_trans_append (p q r : Str) (h : startsWithL p q = true) :
    startsWithL p (q ++ r) = true := by
  induction p generalizing q with
  | nil => rfl
  | cons a ps ih =>
    cases q with
    | nil => exact absurd h (by simp [startsWithL])
    | cons b qs =>
      simp only [startsWithL, Bool.and_eq_true] at h
      simp only [List.cons_append, startsWithL, Bool.and_eq_true]
      exact ⟨h.1, ih qs h.2⟩

theorem noSlash_append (a b : Str) : noSlash (a ++ b) = (noSlash a && noSlash b) := by
  simp [noSlash, List.all_append]

theorem noSlash_parts (A B C d h : Str) (hA : noSlash A = true) (hd : noSlash d = true)
    (hB : noSlash B = true) (hh : noSlash h = true) (hC : noSlash C = true) :
    noSlash (A ++ (d ++ (B ++ (h ++ C)))) = true := by
  simp [noSlash_append, hA, hd, hB, hh, hC]

theorem identify_append (dir t : Str) (ht : noSlash t = true) :
    grib_file_name2trop_model_name (dir ++ slash :: t) =
      (if startsWithL (("ERA-Int").data) t then some nECMWF
       else if startsWithL (("merra").data) t then some nMERRA
       else if startsWithL (("narr").data) t then some nNARR
       else if startsWithL (("ERA_").data) t then some nERA
       else none) := by
  simp only [grib_file_name2trop_model_name, basenameL_append_slash dir t ht]

theorem resolve_headD_ecmwf (d h dir : Str) :
    (date_list2grib_file [d] h nECMWF dir).headD [] =
      dir ++ slash :: (("ERA-Int_").data ++ (d ++ (("_").data ++ (h ++ (".grb").data)))) := by
  simp [date_list2grib_file, List.append_assoc]

theorem resolve_headD_merra (d h dir : Str) :
    (date_list2grib_file [d] h nMERRA dir).headD [] =
      dir ++ slash :: (("merra-").data ++ (d ++ (("-").data ++ (h ++ (".nc4").data)))) := by
  simp [date_list2grib_file, nMERRA, nECMWF, List.append_assoc]

theorem resolve_headD_narr (d h dir : Str) :
    (date_list2grib_file [d] h nNARR dir).headD [] =
      dir ++ slash :: (("narr-a_221_").data ++ (d ++ (("_").data ++ (h ++ ("00_000.grb").data)))) := by
  simp [date_list2grib_file, nNARR, nECMWF, nMERRA, List.append_assoc]

theorem resolve_headD_era (d h dir : Str) :
    (date_list2grib_file [d] h nERA dir).headD [] =
      dir ++ slash :: (("ERA_").data ++ (d ++ (("_").data ++ (h ++ (".grb").data)))) := by
  simp [date_list2grib_file, nERA, nECMWF, nMERRA, nNARR, List.append_assoc]

theorem resolve_headD_merra1 (d h dir : Str) :
    (date_list2grib_file [d] h nMERRA1 dir).headD [] =
      dir ++ slash :: (("merra-").data ++ (d ++ (("-").data ++ (h ++ (".hdf").data)))) := by
  simp [date_list2grib_file, nMERRA1, nECMWF, nMERRA, nNARR, nERA, List.append_assoc]

/-- Claim C1 counterexample: the round-trip fails for the supported model
identifier `MERRA1` — the resolved artifact `merra-<date>-<hour>.hdf` has a
basename starting with `merra`, so `grib_file_name2trop_model_name` identifies
it as `MERRA`, not `MERRA1`. -/
theorem c1_merra1_roundtrip_fails :
    grib_file_name2trop_model_name
        ((date_list2grib_file [dateEx] hourEx nMERRA1 dirEx).headD []) ≠ some nMERRA1 := by
  decide

/-- Claim C1 (amended): for a date and hour containing no path separator, the
model identified from the resolved artifact path round-trips for the four
model identifiers ECMWF, MERRA, NARR and ERA; for MERRA1 the identified model
is MERRA instead. -/
theorem resolver_identify_roundtrip_amended (d h dir : Str)
    (hd : noSlash d = true) (hh : noSlash h = true) :
    grib_file_name2trop_model_name ((date_list2grib_file [d] h nECMWF dir).headD []) = some nECMWF
    ∧ grib_file_name2trop_model_name ((date_list2grib_file [d] h nMERRA dir).headD []) = some nMERRA
    ∧ grib_file_name2trop_model_name ((date_list2grib_file [d] h nNARR dir).headD []) = some nNARR
    ∧ grib_file_name2trop_model_name ((date_list2grib_file [d] h nERA dir).headD []) = some nERA
    ∧ grib_file_name2trop_model_name ((date_list2grib_file [d] h nMERRA1 dir).headD []) = some nMERRA := by
  refine ⟨?_, ?_, ?_, ?_, ?_⟩
  · rw [resolve_headD_ecmwf, identify_append dir _
      (noSlash_parts _ _ _ _ _ (by decide) hd (by decide) hh (by decide))]
    have h1 : startsWithL (("ERA-Int").data)
        (("ERA-Int_").data ++ (d ++ (("_").data ++ (h ++ (".grb").data)))) = true :=
      startsWithL_trans_append _ (("ERA-Int_").data) _ (by decide)
    simp only [h1]
    simp
  · rw [resolve_headD_merra, identify_append dir _
      (noSlash_parts _ _ _ _ _ (by decide) hd (by decide) hh (by decide))]
    have h0 : startsWithL (("ERA-Int").data)
        (("merra-").data ++ (d ++ (("-").data ++ (h ++ (".nc4").data)))) = false := rfl
    have h1 : startsWithL (("merra").data)
        (("merra-").data ++ (d ++ (("-").data ++ (h ++ (".nc4").data)))) = true :=
      startsWithL_trans_append _ (("merra-").data) _ (by decide)
    simp only [h0, h1]
    simp
  · rw [resolve_headD_narr, identify_append dir _
      (noSlash_parts _ _ _ _ _ (by decide) hd (by decide) hh (by decide))]
    have h0 : startsWithL (("ERA-Int").data)
        (("narr-a_221_").data ++ (d ++ (("_").data ++ (h ++ ("00_000.grb").data)))) = false := rfl
    have h1 : startsWithL (("merra").data)
        (("narr-a_221_").data ++ (d ++ (("_").data ++ (h ++ ("00_000.grb").data)))) = false := rfl
    have h2 : startsWithL (("narr").data)
        (("narr-a_221_").data ++ (d ++ (("_").data ++ (h ++ ("00_000.grb").data)))) = true :=
      startsWithL_trans_append _ (("narr-a_221_").data) _ (by decide)
    simp only [h0, h1, h2]
    simp
  · rw [resolve_headD_era, identify_append dir _
      (noSlash_parts _ _ _ _ _ (by decide) hd (by decide) hh (by decide))]
    have h0 : startsWithL (("ERA-Int").data)
        (("ERA_").data ++ (d ++ (("_").data ++ (h ++ (".grb").data)))) = false := rfl
    have h1 : startsWithL (("merra").data)
        (("ERA_").data ++ (d ++ (("_").data ++ (h ++ (".grb").data)))) = false := rfl
    have h2 : startsWithL (("narr").data)
        (("ERA_").data ++ (d ++ (("_").data ++ (h ++ (".grb").data)))) = false := rfl
    have h3 : startsWithL (("ERA_").data)
        (("ERA_").data ++ (d ++ (("_").data ++ (h ++ (".grb").data)))) = true :=
      startsWithL_trans_append _ (("ERA_").data) _ (by decide)
    simp only [h0, h1, h2, h3]
    simp
  · rw [resolve_headD_merra1, identify_append dir _
      (noSlash_parts _ _ _ _ _ (by decide) hd (by decide) hh (by decide))]
    have h0 : startsWithL (("ERA-Int").data)
        (("merra-").data ++ (d ++ (("-").data ++ (h ++ (".hdf").data)))) = false := rfl
    have h1 : startsWithL (("merra").data)
        (("merra-").data ++ (d ++ (("-").data ++ (h ++ (".hdf").data)))) = true :=
      startsWithL_trans_append _ (("merra-").data) _ (by decide)
    simp only [h0, h1]
    simp

/-- Witness for the amended claim C1 at a concrete date, hour and directory. -/
theorem resolver_identify_roundtrip_amended_witness :
    noSlash dateEx = true ∧ noSlash hourEx = true
    ∧ (grib_file_name2trop_model_name
          ((date_list2grib_file [dateEx] hourEx nECMWF dirEx).headD []) = some nECMWF
       ∧ grib_file_name2trop_model_name
          ((date_list2grib_file [dateEx] hourEx nMERRA dirEx).headD []) = some nMERRA
       ∧ grib_file_name2trop_model_name
          ((date_list2grib_file [dateEx] hourEx nNARR dirEx).headD []) = some nNARR
       ∧ grib_file_name2trop_model_name
          ((date_list2grib_file [dateEx] hourEx nERA dirEx).headD []) = some nERA
       ∧ grib_file_name2trop_model_name
          ((date_list2grib_file [dateEx] hourEx nMERRA1 dirEx).headD []) = some nMERRA) :=
  ⟨by decide, by decide,
   resolver_identify_roundtrip_amended dateEx hourEx dirEx (by decide) (by decide)⟩

/-- Claim C9: `grib_file_name2trop_model_name` is partial — for any artifact
path whose basename starts with none of `ERA-Int`, `merra`, `narr`, `ERA_`,
the Python function never assigns its return variable (an `UnboundLocalError`,
modelled as `none`) rather than returning a sentinel value. -/
theorem identify_unassigned_on_unknown_name (g : Str)
    (h1 : startsWithL (("ERA-Int").data) (basenameL g) = false)
    (h2 : startsWithL (("merra").data) (basenameL g) = false)
    (h3 : startsWithL (("narr").data) (basenameL g) = false)
    (h4 : startsWithL (("ERA_").data) (basenameL g) = false) :
    grib_file_name2trop_model_name g = none := by
  simp [grib_file_name2trop_model_name, h1, h2, h3, h4]

/-- Witness for claim C9 at a concrete unrecognized artifact path. -/
theorem identify_unassigned_on_unknown_name_witness :
    startsWithL (("ERA-Int").data) (basenameL unknownEx) = false
    ∧ startsWithL (("merra").data) (basenameL unknownEx) = false
    ∧ startsWithL (("narr").data) (basenameL unknownEx) = false
    ∧ startsWithL (("ERA_").data) (basenameL unknownEx) = false
    ∧ grib_file_name2trop_model_name unknownEx = none :=
  ⟨by decide, by decide, by decide, by decide,
   identify_unassigned_on_unknown_name unknownEx (by decide) (by decide) (by decide) (by decide)⟩

/-- Claim C10: for any model identifier other than the five supported
variants, `date_list2grib_file` falls through every branch and appends the
bare directory path with a trailing separator for each date, raising no
error. -/
theorem unknown_model_appends_bare_dir (dl : List Str) (hour m dir : Str)
    (h1 : m ≠ nECMWF) (h2 : m ≠ nMERRA) (h3 : m ≠ nNARR) (h4 : m ≠ nERA)
    (h5 : m ≠ nMERRA1) :
    date_list2grib_file dl hour m dir = dl.map (fun _ => dir ++ [slash]) := by
  simp [date_list2grib_file, h1, h2, h3, h4, h5]

/-- Witness for claim C10 at the unsupported model identifier `FOO`. -/
theorem unknown_model_appends_bare_dir_witness :
    fooModel ≠ nECMWF ∧ fooModel ≠ nMERRA ∧ fooModel ≠ nNARR ∧ fooModel ≠ nERA
    ∧ fooModel ≠ nMERRA1
    ∧ date_list2grib_file [dateEx] hourEx fooModel dirEx
        = [dateEx].map (fun _ => dirEx ++ [slash]) :=
  ⟨by decide, by decide, by decide, by decide, by decide,
   unknown_model_appends_bare_dir [dateEx] hourEx fooModel dirEx
     (by decide) (by decide) (by decide) (by decide) (by decide)⟩

theorem foldPair_snd (cs : List Str) (fs0 : FS) (ex0 : List Str) :
    (cs.foldl (fun acc i => (fsDelete acc.1 i, removeFirst i acc.2)) (fs0, ex0)).2
      = cs.foldl (fun acc i => removeFirst i acc) ex0 := by
  induction cs generalizing fs0 ex0 with
  | nil => rfl
  | cons c cs ih => simp only [List.foldl_cons]; exact ih _ _

theorem foldRemove_cons_of_ne (cs : List Str) (x : Str) (acc : List Str)
    (h : ∀ c ∈ cs, c ≠ x) :
    cs.foldl (fun acc i => removeFirst i acc) (x :: acc)
      = x :: cs.foldl (fun acc i => removeFirst i acc) acc := by
  induction cs generalizing acc with
  | nil => rfl
  | cons c cs ih =>
    have hcx : ¬ x = c := fun he => h c (List.mem_cons_self c cs) he.symm
    have h' : ∀ c' ∈ cs, c' ≠ x := fun c' hc' => h c' (List.mem_cons_of_mem c hc')
    simp only [List.foldl_cons, removeFirst, if_neg hcx]
    exact ih _ h'

theorem foldRemove_filter (p : Str → Bool) (l : List Str) :
    (l.filter p).foldl (fun acc i => removeFirst i acc) l
      = l.filter (fun x => ! p x) := by
  induction l with
  | nil => rfl
  | cons x xs ih =>
    by_cases hx : p x = true
    · rw [List.filter_cons_of_pos hx]
      simp only [List.foldl_cons, removeFirst, if_pos rfl]
      rw [List.filter_cons_of_neg (by simp [hx])]
      exact ih
    · have hxf : p x = false := Bool.eq_false_iff.mpr hx
      rw [List.filter_cons_of_neg (by simp [hxf])]
      have hne : ∀ c ∈ xs.filter p, c ≠ x := by
        intro c hc he
        have : p c = true := (List.mem_filter.mp hc).2
        rw [he, hxf] at this
        cases this
      rw [foldRemove_cons_of_ne _ _ _ hne, ih]
      rw [List.filter_cons_of_pos (by simp [hxf])]

/-- Claim C2 counterexample: with a consensus size of 20000000 bytes, the
artifact of size exactly 18000000 bytes (90% on the nose) is NOT classified
corrupt — `check_exist_grib_file` keeps it in the valid set and does not
delete it, contradicting the claim that exactly 90% is corrupt. -/
theorem c2_ninety_percent_not_corrupt :
    mostCommon (bigFileSizes fsC2 lC2) = 20000000
    ∧ 10 * 18000000 = 9 * 20000000
    ∧ fsSize fsC2 gribC = some 18000000
    ∧ (check_exist_grib_file fsC2 lC2).2 = [gribA, gribB, gribC]
    ∧ fsSize (check_exist_grib_file fsC2 lC2).1 gribC = some 18000000 := by
  decide

/-- Claim C2 (amended): an existing artifact is classified corrupt (and
dropped from the valid set) exactly when its size is STRICTLY below 90% of
the consensus size; an artifact at exactly 90% of the consensus size is kept
as valid, and so is one at 91%. -/
theorem corruption_threshold_strict (fs : FS) (l : List Str) (g : Str) (s : Nat)
    (hne : (bigFileSizes fs l).isEmpty = false)
    (hg : g ∈ existingFiles fs l)
    (hs : fsSize fs g = some s) :
    (g ∈ (check_exist_grib_file fs l).2 ↔ 9 * mostCommon (bigFileSizes fs l) ≤ 10 * s) := by
  have hex : (existingFiles fs l).isEmpty = false := by
    cases hEx : existingFiles fs l with
    | nil => rw [hEx] at hg; cases hg
    | cons a as => simp
  simp only [check_exist_grib_file, hex, hne, Bool.false_eq_true, if_false]
  rw [foldPair_snd, foldRemove_filter]
  simp only [List.mem_filter, hg, true_and, corruptPred, hs, Bool.not_eq_true']
  rw [decide_eq_false_iff_not, Nat.not_lt]

/-- Witness for the amended claim C2: the 18000000-byte artifact sits exactly
at 90% of the 20000000-byte consensus and the classification criterion
resolves to valid. -/
theorem corruption_threshold_strict_witness :
    (bigFileSizes fsC2 lC2).isEmpty = false
    ∧ gribC ∈ existingFiles fsC2 lC2
    ∧ fsSize fsC2 gribC = some 18000000
    ∧ (gribC ∈ (check_exist_grib_file fsC2 lC2).2
        ↔ 9 * mostCommon (bigFileSizes fsC2 lC2) ≤ 10 * 18000000) :=
  ⟨by decide, by decide, by decide,
   corruption_threshold_strict fsC2 lC2 gribC 18000000 (by decide) (by decide) (by decide)⟩

/-- Claim C3: the code contradicts the no-consensus fail-safe.  With two
existing artifacts both at or below the 10^7-byte minimum (sizes 100 and 200,
so `bigFileSizes` is empty and there is no consensus), the intent —
`gfile_corrupt = gfile_exist` — is to treat ALL existing artifacts as corrupt,
delete them and return an empty valid set; but because `gfile_corrupt`
aliases `gfile_exist`, the deletion loop mutates the list it iterates and
skips every other element: only the first file is deleted and the function
returns `[gribB]`, with `gribB` still in the store. -/
theorem c3_no_consensus_aliasing_eval :
    bigFileSizes fsC3 lC3 = []
    ∧ fsSize fsC3 gribA = some 100 ∧ fsSize fsC3 gribB = some 200
    ∧ (check_exist_grib_file fsC3 lC3).2 = [gribB]
    ∧ fsSize (check_exist_grib_file fsC3 lC3).1 gribB = some 200 := by
  decide

/-- Claim C4: after the reference normalization of `get_delay_timeseries`
(subtracting the reference epoch's field elementwise from every epoch), the
field at the reference epoch index is exactly the all-zero array, for every
delay stack in which the reference index is in range (in particular every
non-empty stack with its default reference index 0). -/
theorem normalization_zero_at_reference (stack : List DelayField) (refIdx : Nat)
    (h : refIdx < stack.length) :
    (normalizeToRef stack refIdx).get? refIdx = some zeroField := by
  have hget : stack.get? refIdx = some (stack.get ⟨refIdx, h⟩) := List.get?_eq_get h
  have hgd : stack.getD refIdx zeroField = stack.get ⟨refIdx, h⟩ := by
    simp [List.getD, List.getElem?_eq_getElem h]
  simp only [normalizeToRef, List.get?_map, hget, Option.map_some']
  refine congrArg some ?_
  funext y x
  rw [hgd]
  simp [zeroField]

/-- Witness for claim C4 on a one-epoch stack of a constant field. -/
theorem normalization_zero_at_reference_witness :
    0 < ([constF3] : List DelayField).length
    ∧ (normalizeToRef [constF3] 0).get? 0 = some zeroField :=
  ⟨by decide, normalization_zero_at_reference [constF3] 0 (by decide)⟩

theorem dloadAttemptLoop_count (fetch : Nat → FS → FS × Option Unit) :
    ∀ fuel i fs, (dloadAttemptLoop fetch fuel i fs).2 = fuel := by
  intro fuel
  induction fuel with
  | zero => intro i fs; rfl
  | succ n ih => intro i fs; simp [dloadAttemptLoop, ih]

theorem dloadAttemptLoop_err_irrelevant (eff : Nat → FS → FS)
    (err : Nat → FS → Option Unit) :
    ∀ fuel i fs,
      dloadAttemptLoop (fun j s => (eff j s, err j s)) fuel i fs
        = dloadAttemptLoop (fun j s => (eff j s, none)) fuel i fs := by
  intro fuel
  induction fuel with
  | zero => intro i fs; rfl
  | succ n ih => intro i fs; simp [dloadAttemptLoop, ih]

/-- Claim C5: when the missing-artifact subset is non-empty, `dload_grib_pyaps`
invokes the external fetch collaborator at most 3 times (the loop makes
exactly 3 attempts); the per-attempt exception outcome never influences the
result — the bare `except: pass` swallows it, so no attempt failure
propagates — and the returned file list is the re-verification of whatever
exists in the store after the final attempt. -/
theorem dload_bounded_retry_swallows_errors
    (eff : Nat → FS → FS) (err : Nat → FS → Option Unit) (fs : FS) (l : List Str)
    (hm : (l.filter (fun g => ! decide (g ∈ (check_exist_grib_file fs l).2))).isEmpty = false) :
    (dload_grib_pyaps (fun i s => (eff i s, err i s)) fs l).2.2 ≤ 3
    ∧ dload_grib_pyaps (fun i s => (eff i s, err i s)) fs l
        = dload_grib_pyaps (fun i s => (eff i s, none)) fs l
    ∧ (dload_grib_pyaps (fun i s => (eff i s, err i s)) fs l).2.1
        = (check_exist_grib_file
            (dloadAttemptLoop (fun i s => (eff i s, err i s)) 3 0
              (check_exist_grib_file fs l).1).1 l).2 := by
  refine ⟨?_, ?_, ?_⟩
  · simp [dload_grib_pyaps, hm, dloadAttemptLoop_count]
  · simp only [dload_grib_pyaps, hm, Bool.false_eq_true, if_false]
    rw [dloadAttemptLoop_err_irrelevant eff err 3 0 (check_exist_grib_file fs l).1]
  · simp [dload_grib_pyaps, hm]

/-- Witness for claim C5: one requested artifact over an empty store (so it is
missing), with a fetch collaborator that raises on every attempt. -/
theorem dload_bounded_retry_swallows_errors_witness :
    (lC5.filter (fun g => ! decide (g ∈ (check_exist_grib_file fsC5 lC5).2))).isEmpty = false
    ∧ ((dload_grib_pyaps (fun i s => (idEff i s, errAlways i s)) fsC5 lC5).2.2 ≤ 3
       ∧ dload_grib_pyaps (fun i s => (idEff i s, errAlways i s)) fsC5 lC5
           = dload_grib_pyaps (fun i s => (idEff i s, none)) fsC5 lC5
       ∧ (dload_grib_pyaps (fun i s => (idEff i s, errAlways i s)) fsC5 lC5).2.1
           = (check_exist_grib_file
               (dloadAttemptLoop (fun i s => (idEff i s, errAlways i s)) 3 0
                 (check_exist_grib_file fsC5 lC5).1).1 lC5).2) :=
  ⟨by decide, dload_bounded_retry_swallows_errors idEff errAlways fsC5 lC5 (by decide)⟩

/-- Claim C6: the code violates the date-survivor guarantee.  With four
existing artifacts all at or below the minimum plausible size (no consensus,
so per the fail-safe NO date's artifact is ever valid) and a fetch that never
produces a file, the aliasing bug in the no-consensus deletion loop lets
`gribD` survive both verification passes inside `dload_grib_pyaps`: the
post-fetch working list is `[gribD]` although re-running the code's own
verifier on the final store classifies even that artifact corrupt (empty
valid set), and `get_delay_timeseries` consequently computes a delay stack
with one epoch (for date 20150104) where the claim requires the stack to
contain no epoch at all. -/
theorem c6_survivor_list_contains_corrupt_eval :
    bigFileSizes fsC6 lC6 = []
    ∧ (dload_grib_pyaps failFetch fsC6 lC6).2.1 = [gribD]
    ∧ (check_exist_grib_file (dload_grib_pyaps failFetch fsC6 lC6).1 lC6).2 = []
    ∧ ((get_delay_timeseries (some geomEx) (some (30, 40)) nECMWF
          (dload_grib_pyaps failFetch fsC6 lC6).2.1 none [] zeroEst none).toOption.map
        (fun r => (r.stack.length, r.dates))) = some (1, [("20150104").data]) := by
  decide

/-- Claim C7: `get_delay` returns the raw estimator output with its sign
inverted and the reference-pixel value subtracted (the two formulations
`-(phs - phs[ref])` and `(-phs) - (-phs)[ref]` coincide), so the returned
field reads exactly zero at the reference pixel for every field. -/
theorem delay_sign_inversion_reference_zero (phs : DelayField) (ry rx : Nat) :
    (∀ y x, get_delay_relative phs ry rx y x = -(phs y x) - -(phs ry rx))
      ∧ get_delay_relative phs ry rx ry rx = 0 := by
  constructor
  · intro y x
    simp only [get_delay_relative]
    ring
  · simp [get_delay_relative]

/-- Claim C8: if the stored delay result exists and is newer (by modification
time) than every contributing weather artifact, `get_delay_timeseries` makes
no estimator invocation, does not rewrite the stored file, and returns the
stored artifact path unchanged. -/
theorem skip_if_fresh_no_recompute (g : Str) (ryx : Nat × Nat) (tm : Str)
    (gfl : List Str) (t : Nat) (ms : List Nat) (est : Str → DelayField)
    (rda : Option Str) (hfresh : ∀ m ∈ ms, m < t) :
    get_delay_timeseries (some g) (some ryx) tm gfl (some t) ms est rda
      = Except.ok ⟨some (pathJoin (dirnameL g) (tm ++ (".h5").data)), 0, false, [], []⟩ := by
  have hro : runOrSkip (some t) ms = false := by
    simp only [runOrSkip, Bool.not_eq_false', List.all_eq_true, decide_eq_true_eq]
    exact hfresh
  simp [get_delay_timeseries, hro]

/-- Witness for claim C8: stored result at time 9, artifacts at times 5, 6. -/
theorem skip_if_fresh_no_recompute_witness :
    (∀ m ∈ [5, 6], m < 9)
    ∧ get_delay_timeseries (some geomEx) (some (30, 40)) nECMWF [gribA] (some 9) [5, 6] zeroEst none
        = Except.ok ⟨some (pathJoin (dirnameL geomEx) (nECMWF ++ (".h5").data)), 0, false, [], []⟩ :=
  ⟨by decide,
   skip_if_fresh_no_recompute geomEx (30, 40) nECMWF [gribA] 9 [5, 6] zeroEst none (by decide)⟩
